import Mathlib

/-!
A verification development for the checkout/return core of the
Best-Inventory-Bot repository.

The Python modules `app/db/models.py`, `app/db/repositories.py`,
`app/core/inventory_service.py` and `app/core/admin_service.py` are
shallowly embedded below.  The database session is modelled as an explicit
`DB` record holding the rows of the five tables; every service method
becomes a pure function from a `DB` (plus its arguments) to an updated
`DB` together with its result.  A Python `raise ValueError(...)` is
modelled as returning the unchanged `DB` paired with a typed error: in the
source the exception is raised before any attribute of a row is assigned,
so the session holds no partial mutation.

Autoincrement ids and `created_at` timestamps: rows are appended to the
lists in creation order and receive strictly increasing ids from per-table
counters.  Queries that order by `created_at DESC` (with a monotone clock,
the order of insertion) are modelled by scanning the reversed list; this
matches the source's own use of `max(Transaction.id)` as a synonym for the
newest transaction in `list_all_on_hands_with_details`.
-/

/-- `ItemStatus` from `app/db/models.py` (a `str` enum). -/
inductive ItemStatus where
  | AVAILABLE
  | TAKEN
  | LOST
  | MAINTENANCE
deriving DecidableEq, Repr

/-- The `.value` of the Python `str` enum `ItemStatus`. -/
def ItemStatus.value : ItemStatus → String
  | AVAILABLE => "available"
  | TAKEN => "taken"
  | LOST => "lost"
  | MAINTENANCE => "maintenance"

/-- `TransactionAction` from `app/db/models.py`: the kind of a custody event. -/
inductive TransactionAction where
  | TAKE
  | RETURN
deriving DecidableEq, Repr

/-- A row of the `users` table (`models.User`). -/
structure User where
  id : Nat
  telegram_id : Int
  username : Option String
  first_name : Option String
  last_name : Option String
  is_admin : Bool
deriving DecidableEq, Repr

/-- A row of the `categories` table (`models.Category`). -/
structure Category where
  id : Nat
  name : String
  description : Option String
  is_active : Bool
deriving DecidableEq, Repr

/-- A row of the `items` table (`models.Item`). -/
structure Item where
  id : Nat
  category_id : Nat
  name : String
  inventory_code : Option String
  status : ItemStatus
  current_holder_id : Option Nat
deriving DecidableEq, Repr

/-- A row of the `transactions` table (`models.Transaction`), one custody
event.  `created_at` is represented by the position of the row in
`DB.transactions` (ids increase with creation time). -/
structure Transaction where
  id : Nat
  item_id : Nat
  user_id : Nat
  action : TransactionAction
  photo_file_id : String
  comment : Option String
deriving DecidableEq, Repr

/-- A row of the `admin_logs` table (`models.AdminLog`), one audit entry. -/
structure AdminLog where
  id : Nat
  admin_id : Option Nat
  action : String
  details : Option String
deriving DecidableEq, Repr

/-- The database state seen through one SQLAlchemy session: the rows of the
five tables plus the autoincrement counters. -/
structure DB where
  users : List User
  categories : List Category
  items : List Item
  transactions : List Transaction
  admin_logs : List AdminLog
  next_user_id : Nat
  next_cat_id : Nat
  next_item_id : Nat
  next_tx_id : Nat
  next_log_id : Nat
deriving DecidableEq, Repr

/-- In-place mutation of an item row held by the session's identity map
(`item.status = ...` in the source): replace the row with that primary key. -/
def DB.setItem (db : DB) (it : Item) : DB :=
  { db with items := db.items.map (fun j => if j.id = it.id then it else j) }

/-- In-place mutation of a user row held by the session's identity map. -/
def DB.setUser (db : DB) (u : User) : DB :=
  { db with users := db.users.map (fun j => if j.id = u.id then u else j) }

/-- `ItemRepository.get_by_id` (`app/db/repositories.py`): `session.get` by
primary key. -/
def ItemRepository.get_by_id (db : DB) (item_id : Nat) : Option Item :=
  db.items.find? (fun j => j.id == item_id)

/-- `TransactionRepository.get_latest_take_for_item`
(`app/db/repositories.py`): the most recent `TAKE` transaction for an item
(`ORDER BY created_at DESC LIMIT 1`), i.e. the first match scanning
newest-first. -/
def TransactionRepository.get_latest_take_for_item (db : DB) (item_id : Nat) :
    Option Transaction :=
  db.transactions.reverse.find?
    (fun tx => tx.item_id == item_id && tx.action == TransactionAction.TAKE)

/-- The error taxonomy of the custody operations.  The source raises
`ValueError` with a distinct message per case; the spec names the cases
`ItemNotFound` (message "Item not found"), `InvalidTransition` (messages
"Item is not available" / "Item is not currently taken") and `NotHolder`
(message "Item is held by another user"). -/
inductive InvError where
  | ItemNotFound
  | InvalidTransition
  | NotHolder
deriving DecidableEq, Repr

/-- `InventoryService.take_item` (`app/core/inventory_service.py`), the
check-out operation.  Returns the session state after the call together
with the created `TAKE` transaction, or the unchanged state and the error
raised (every `raise` in the source happens before any mutation). -/
def InventoryService.take_item (db : DB) (item_id : Nat) (user : User)
    (photo_file_id : String) (comment : Option String) :
    DB × Except InvError Transaction :=
  match ItemRepository.get_by_id db item_id with
  | none => (db, Except.error InvError.ItemNotFound)
  | some item =>
    if item.status ≠ ItemStatus.AVAILABLE then
      (db, Except.error InvError.InvalidTransition)
    else
      let item2 : Item :=
        { item with status := ItemStatus.TAKEN, current_holder_id := some user.id }
      let tx : Transaction :=
        { id := db.next_tx_id, item_id := item.id, user_id := user.id
          action := TransactionAction.TAKE, photo_file_id := photo_file_id
          comment := comment }
      let db2 : DB :=
        { DB.setItem db item2 with
          transactions := db.transactions ++ [tx]
          next_tx_id := db.next_tx_id + 1 }
      (db2, Except.ok tx)

/-- `InventoryService.return_item` (`app/core/inventory_service.py`), the
check-in operation. -/
def InventoryService.return_item (db : DB) (item_id : Nat) (user : User)
    (photo_file_id : String) (comment : Option String) :
    DB × Except InvError Transaction :=
  match ItemRepository.get_by_id db item_id with
  | none => (db, Except.error InvError.ItemNotFound)
  | some item =>
    if item.status ≠ ItemStatus.TAKEN then
      (db, Except.error InvError.InvalidTransition)
    else if item.current_holder_id ≠ some user.id then
      (db, Except.error InvError.NotHolder)
    else
      let item2 : Item :=
        { item with status := ItemStatus.AVAILABLE, current_holder_id := none }
      let tx : Transaction :=
        { id := db.next_tx_id, item_id := item.id, user_id := user.id
          action := TransactionAction.RETURN, photo_file_id := photo_file_id
          comment := comment }
      let db2 : DB :=
        { DB.setItem db item2 with
          transactions := db.transactions ++ [tx]
          next_tx_id := db.next_tx_id + 1 }
      (db2, Except.ok tx)

/-- `AdminService.set_item_status` (`app/core/admin_service.py`): the
administrative forced status change.  Returns `false` and leaves the state
unchanged when the item does not exist; otherwise sets the status, clears
the holder whenever the new status is not `TAKEN`, and appends one audit
entry. -/
def AdminService.set_item_status (db : DB) (admin : User) (item_id : Nat)
    (status : ItemStatus) : DB × Bool :=
  match ItemRepository.get_by_id db item_id with
  | none => (db, false)
  | some item =>
    let item2 : Item :=
      { item with
        status := status
        current_holder_id :=
          if status ≠ ItemStatus.TAKEN then none else item.current_holder_id }
    let entry : AdminLog :=
      { id := db.next_log_id, admin_id := some admin.id
        action := "set_item_status"
        details := some ("item_id=" ++ Nat.repr item_id ++ ",status=" ++ status.value) }
    let db2 : DB :=
      { DB.setItem db item2 with
        admin_logs := db.admin_logs ++ [entry]
        next_log_id := db.next_log_id + 1 }
    (db2, true)

/-- Constraint violations reported by `session.flush()` against the schema
declared in `app/db/models.py`: the unique column `items.inventory_code`,
the foreign key `items.category_id → categories.id`, and the unique column
`categories.name`.  The spec's §7 taxonomy names them `DuplicateCode`,
`CategoryNotFound` and `DuplicateName`. -/
inductive ConstraintViolation where
  | DuplicateCode
  | CategoryNotFound
  | DuplicateName
deriving DecidableEq, Repr

/-- `AdminService.create_item` (`app/core/admin_service.py`) followed by
`session.flush()`.  The service performs no explicit checks; the flush
enforces the declared schema constraints, and a failed flush rolls the
transaction back, so on failure neither the item row nor the audit row is
kept. -/
def AdminService.create_item (db : DB) (admin : User) (category_id : Nat)
    (name : String) (inventory_code : Option String) :
    DB × Except ConstraintViolation Item :=
  if inventory_code ≠ none ∧ ∃ j ∈ db.items, j.inventory_code = inventory_code then
    (db, Except.error ConstraintViolation.DuplicateCode)
  else if ∀ c ∈ db.categories, c.id ≠ category_id then
    (db, Except.error ConstraintViolation.CategoryNotFound)
  else
    let item : Item :=
      { id := db.next_item_id, category_id := category_id, name := name
        inventory_code := inventory_code, status := ItemStatus.AVAILABLE
        current_holder_id := none }
    let entry : AdminLog :=
      { id := db.next_log_id, admin_id := some admin.id
        action := "create_item"
        details := some ("category_id=" ++ Nat.repr category_id ++ ",name=" ++ name) }
    let db2 : DB :=
      { db with
        items := db.items ++ [item]
        admin_logs := db.admin_logs ++ [entry]
        next_item_id := db.next_item_id + 1
        next_log_id := db.next_log_id + 1 }
    (db2, Except.ok item)

/-- `AdminService.create_category` (`app/core/admin_service.py`) followed by
`session.flush()` enforcing the unique `categories.name` column. -/
def AdminService.create_category (db : DB) (admin : User) (name : String)
    (description : Option String) : DB × Except ConstraintViolation Category :=
  if ∃ c ∈ db.categories, c.name = name then
    (db, Except.error ConstraintViolation.DuplicateName)
  else
    let cat : Category :=
      { id := db.next_cat_id, name := name, description := description
        is_active := true }
    let entry : AdminLog :=
      { id := db.next_log_id, admin_id := some admin.id
        action := "create_category", details := some ("name=" ++ name) }
    let db2 : DB :=
      { db with
        categories := db.categories ++ [cat]
        admin_logs := db.admin_logs ++ [entry]
        next_cat_id := db.next_cat_id + 1
        next_log_id := db.next_log_id + 1 }
    (db2, Except.ok cat)

/-- Python `s.lstrip("@")`: drop every leading `'@'` character. -/
def pyLstripAt (s : String) : String :=
  String.mk (s.data.dropWhile (fun c => c == '@'))

/-- Python `s.lower()`, modelled character by character (Telegram
usernames are ASCII, where Python's `lower` and `Char.toLower` agree). -/
def pyLower (s : String) : String :=
  String.mk (s.data.map Char.toLower)

/-- The username normalization in `InventoryService.ensure_user`:
`(username or "").lstrip("@").lower()`. -/
def normalizedUsername (username : Option String) : String :=
  pyLower (pyLstripAt (username.getD ""))

/-- `UserRepository.get_or_create_from_telegram` (`app/db/repositories.py`):
look a user up by telegram id; if present, possibly raise (never lower) the
admin flag and overwrite the name fields; otherwise insert a fresh row. -/
def UserRepository.get_or_create_from_telegram (db : DB) (telegram_id : Int)
    (username first_name last_name : Option String) (make_admin : Bool) :
    DB × User :=
  match db.users.find? (fun u => u.telegram_id == telegram_id) with
  | some user =>
    let user1 := if make_admin && !user.is_admin then
        { user with is_admin := true } else user
    let user2 := { user1 with
        username := username, first_name := first_name, last_name := last_name }
    (DB.setUser db user2, user2)
  | none =>
    let user : User :=
      { id := db.next_user_id, telegram_id := telegram_id, username := username
        first_name := first_name, last_name := last_name, is_admin := make_admin }
    ({ db with
        users := db.users ++ [user]
        next_user_id := db.next_user_id + 1 }, user)

/-- `InventoryService.ensure_user` (`app/core/inventory_service.py`):
identity bootstrap with allow-list based initial admin grant. -/
def InventoryService.ensure_user (db : DB) (telegram_id : Int)
    (username first_name last_name : Option String)
    (initial_admin_ids : List Int) (initial_admin_usernames : List String) :
    DB × User :=
  let nu := normalizedUsername username
  let make_admin := initial_admin_ids.contains telegram_id ||
    (if nu ≠ "" then initial_admin_usernames.contains nu else false)
  UserRepository.get_or_create_from_telegram db telegram_id username
    first_name last_name make_admin

/-- One invocation of a state-changing custody-core operation, with its
arguments. -/
inductive Op where
  | take_item (item_id : Nat) (user : User) (photo_file_id : String)
      (comment : Option String)
  | return_item (item_id : Nat) (user : User) (photo_file_id : String)
      (comment : Option String)
  | set_item_status (admin : User) (item_id : Nat) (status : ItemStatus)
deriving DecidableEq, Repr

/-- The session state after running one operation (a failed operation, an
exception or a `false` result, leaves the state as it was). -/
def applyOp (db : DB) : Op → DB
  | Op.take_item i u p c => (InventoryService.take_item db i u p c).1
  | Op.return_item i u p c => (InventoryService.return_item db i u p c).1
  | Op.set_item_status a i s => (AdminService.set_item_status db a i s).1

/-- The state after a sequence of operations. -/
def applyOps (db : DB) (ops : List Op) : DB :=
  ops.foldl applyOp db

/-- Whether an operation is an administrative forced change **to** the
`TAKEN` status. -/
def Op.forcesTaken : Op → Bool
  | Op.set_item_status _ _ s => s == ItemStatus.TAKEN
  | _ => false

/-- The §8 state/holder invariant: an item is `TAKEN` exactly when its
denormalized `current_holder_id` is non-null. -/
def DB.holderInv (db : DB) : Prop :=
  ∀ it ∈ db.items, (it.status = ItemStatus.TAKEN ↔ it.current_holder_id ≠ none)

/-- The §8 history-agreement invariant: the denormalized holder of a
`TAKEN` item is the account of its most recent `TAKE` custody event, and
the holder of any item not `TAKEN` is null. -/
def DB.holderAgreesHistory (db : DB) : Prop :=
  ∀ it ∈ db.items,
    (it.status = ItemStatus.TAKEN →
      it.current_holder_id =
        (TransactionRepository.get_latest_take_for_item db it.id).map
          (fun tx => tx.user_id)) ∧
    (it.status ≠ ItemStatus.TAKEN → it.current_holder_id = none)

instance (db : DB) : Decidable db.holderInv := by
  unfold DB.holderInv
  exact inferInstance

instance (db : DB) : Decidable db.holderAgreesHistory := by
  unfold DB.holderAgreesHistory
  exact inferInstance

/-! Concrete sample rows, used to instantiate the theorems below on
closed inputs. -/

/-- Sample ordinary account. -/
def userA : User :=
  { id := 1, telegram_id := 100, username := some "alice", first_name := some "Alice"
    last_name := none, is_admin := false }

/-- Sample second ordinary account. -/
def userB : User :=
  { id := 2, telegram_id := 200, username := some "bob", first_name := none
    last_name := none, is_admin := false }

/-- Sample administrator account. -/
def adminU : User :=
  { id := 3, telegram_id := 300, username := some "root", first_name := none
    last_name := none, is_admin := true }

/-- Sample category. -/
def catTools : Category :=
  { id := 1, name := "tools", description := none, is_active := true }

/-- Sample available item. -/
def itemAvail : Item :=
  { id := 1, category_id := 1, name := "camera", inventory_code := some "C-1"
    status := ItemStatus.AVAILABLE, current_holder_id := none }

/-- Sample item currently taken by `userB`. -/
def itemHeld : Item :=
  { id := 2, category_id := 1, name := "drill", inventory_code := none
    status := ItemStatus.TAKEN, current_holder_id := some 2 }

/-- The `TAKE` custody event that put `itemHeld` into `userB`'s hands. -/
def txHeld : Transaction :=
  { id := 1, item_id := 2, user_id := 2, action := TransactionAction.TAKE
    photo_file_id := "p0", comment := none }

/-- A sample database state: one available item, one item held by `userB`
with its matching `TAKE` event. -/
def dbW : DB :=
  { users := [userA, userB, adminU], categories := [catTools]
    items := [itemAvail, itemHeld], transactions := [txHeld], admin_logs := []
    next_user_id := 4, next_cat_id := 2, next_item_id := 3, next_tx_id := 2
    next_log_id := 1 }

/-- A database state where item 1 has already been taken and returned by
`userB`: its custody history ends in a `RETURN`, but its most recent `TAKE`
references `userB`. -/
def dbHist : DB :=
  { users := [userA, userB, adminU], categories := [catTools]
    items := [itemAvail], transactions :=
      [{ id := 1, item_id := 1, user_id := 2, action := TransactionAction.TAKE
         photo_file_id := "p1", comment := none },
       { id := 2, item_id := 1, user_id := 2, action := TransactionAction.RETURN
         photo_file_id := "p2", comment := none }]
    admin_logs := [], next_user_id := 4, next_cat_id := 2, next_item_id := 2
    next_tx_id := 3, next_log_id := 1 }

/-- The stored account after `userA` reconnects as "@Alice" with the
username allow-list `["alice"]`: the flag is raised and the name fields
are overwritten. -/
def u2X : User :=
  { id := 1, telegram_id := 100, username := some "@Alice"
    first_name := some "F", last_name := some "L", is_admin := true }

/-- `dbW` after that bootstrap call. -/
def db2X : DB :=
  { dbW with users := [u2X, userB, adminU] }

/-! General lemmas about the list operations the repositories use. -/

/-- Finding by primary key after replacing the row with that key. -/
theorem find?_map_replace (l : List Item) (k : Nat) (item it2 : Item)
    (h : l.find? (fun j => j.id == k) = some item) (hid : it2.id = item.id) :
    (l.map (fun j => if j.id = item.id then it2 else j)).find?
      (fun j => j.id == k) = some it2 := by
  have hk : item.id = k := by simpa using List.find?_some h
  induction l with
  | nil => simp at h
  | cons a as ih =>
    rw [List.map_cons]
    by_cases ha : a.id = k
    · rw [List.find?_cons_of_pos _ (by simpa using ha)] at h
      injection h with h
      subst h
      rw [if_pos rfl]
      exact List.find?_cons_of_pos _ (by simp [hid, hk])
    · rw [List.find?_cons_of_neg _ (by simpa using ha)] at h
      have hne : ¬ a.id = item.id := by rw [hk]; exact ha
      rw [if_neg hne, List.find?_cons_of_neg _ (by simpa using ha)]
      exact ih h

/-- A member of the item table after an in-place row update is either the
updated row or an untouched row with a different primary key. -/
theorem mem_setItem {db : DB} {itN it2 : Item}
    (h : it2 ∈ (DB.setItem db itN).items) :
    it2 = itN ∨ (it2 ∈ db.items ∧ it2.id ≠ itN.id) := by
  unfold DB.setItem at h
  simp only [List.mem_map] at h
  obtain ⟨j, hj, hje⟩ := h
  by_cases hid : j.id = itN.id
  · left
    rw [if_pos hid] at hje
    exact hje.symm
  · right
    rw [if_neg hid] at hje
    subst hje
    exact ⟨hj, hid⟩

/-- Scanning newest-first after appending one row: the new row is looked at
first. -/
theorem find?_reverse_concat {α : Type} (l : List α) (a : α) (p : α → Bool) :
    (l ++ [a]).reverse.find? p = if p a then some a else l.reverse.find? p := by
  rw [List.reverse_append, List.reverse_singleton, List.singleton_append]
  by_cases h : p a = true
  · rw [if_pos h, List.find?_cons_of_pos _ h]
  · rw [if_neg h, List.find?_cons_of_neg _ h]

/-- The full effect of a successful `take_item` call, stated once and
reused below. -/
theorem take_item_spec_aux (db : DB) (item_id : Nat) (user : User)
    (photo : String) (comment : Option String) (item : Item)
    (hfind : ItemRepository.get_by_id db item_id = some item)
    (hav : item.status = ItemStatus.AVAILABLE) :
    ∃ db2 tx,
      InventoryService.take_item db item_id user photo comment =
        (db2, Except.ok tx) ∧
      ItemRepository.get_by_id db2 item_id =
        some { item with
               status := ItemStatus.TAKEN
               current_holder_id := some user.id } ∧
      db2.transactions = db.transactions ++ [tx] ∧
      tx.item_id = item_id ∧ tx.user_id = user.id ∧
      tx.action = TransactionAction.TAKE ∧
      tx.photo_file_id = photo ∧ tx.comment = comment := by
  have hk : item.id = item_id := by simpa using List.find?_some hfind
  unfold InventoryService.take_item
  rw [hfind]
  simp only [hav, ne_eq, not_true_eq_false, if_false, ite_false]
  refine ⟨_, _, rfl, ?_, rfl, hk, rfl, rfl, rfl, rfl⟩
  show ItemRepository.get_by_id _ item_id = _
  unfold ItemRepository.get_by_id DB.setItem
  exact find?_map_replace db.items item_id item _ hfind rfl

/-- The full effect of a successful `return_item` call, stated once and
reused below. -/
theorem return_item_spec_aux (db : DB) (item_id : Nat) (user : User)
    (photo : String) (comment : Option String) (item : Item)
    (hfind : ItemRepository.get_by_id db item_id = some item)
    (htk : item.status = ItemStatus.TAKEN)
    (hh : item.current_holder_id = some user.id) :
    ∃ db2 tx,
      InventoryService.return_item db item_id user photo comment =
        (db2, Except.ok tx) ∧
      ItemRepository.get_by_id db2 item_id =
        some { item with
               status := ItemStatus.AVAILABLE
               current_holder_id := none } ∧
      db2.transactions = db.transactions ++ [tx] ∧
      tx.item_id = item_id ∧ tx.user_id = user.id ∧
      tx.action = TransactionAction.RETURN ∧
      tx.photo_file_id = photo ∧ tx.comment = comment := by
  have hk : item.id = item_id := by simpa using List.find?_some hfind
  unfold InventoryService.return_item
  rw [hfind]
  simp only [htk, hh, ne_eq, not_true_eq_false, if_false, ite_false]
  refine ⟨_, _, rfl, ?_, rfl, hk, rfl, rfl, rfl, rfl⟩
  show ItemRepository.get_by_id _ item_id = _
  unfold ItemRepository.get_by_id DB.setItem
  exact find?_map_replace db.items item_id item _ hfind rfl

/-- C2: for every existing item whose state is exactly `available`,
`check_out` (`take_item`) sets the item's state to `taken`, sets its
current holder to the requesting account, appends exactly one custody
event of kind `take` carrying the same photo reference and comment, and
returns that event. -/
theorem take_item_available_success (db : DB) (item_id : Nat) (user : User)
    (photo : String) (comment : Option String) (item : Item)
    (hfind : ItemRepository.get_by_id db item_id = some item)
    (hav : item.status = ItemStatus.AVAILABLE) :
    ∃ db2 tx,
      InventoryService.take_item db item_id user photo comment =
        (db2, Except.ok tx) ∧
      ItemRepository.get_by_id db2 item_id =
        some { item with
               status := ItemStatus.TAKEN
               current_holder_id := some user.id } ∧
      db2.transactions = db.transactions ++ [tx] ∧
      tx.item_id = item_id ∧ tx.user_id = user.id ∧
      tx.action = TransactionAction.TAKE ∧
      tx.photo_file_id = photo ∧ tx.comment = comment :=
  take_item_spec_aux db item_id user photo comment item hfind hav

/-- C2 witness: `userA` checks item 1 out of `dbW`. -/
theorem take_item_available_success_witness :
    ItemRepository.get_by_id dbW 1 = some itemAvail ∧
    itemAvail.status = ItemStatus.AVAILABLE ∧
    (∃ db2 tx,
      InventoryService.take_item dbW 1 userA "ph" (some "c") =
        (db2, Except.ok tx) ∧
      ItemRepository.get_by_id db2 1 =
        some { itemAvail with
               status := ItemStatus.TAKEN
               current_holder_id := some userA.id } ∧
      db2.transactions = dbW.transactions ++ [tx] ∧
      tx.item_id = 1 ∧ tx.user_id = userA.id ∧
      tx.action = TransactionAction.TAKE ∧
      tx.photo_file_id = "ph" ∧ tx.comment = some "c") :=
  ⟨by decide, by decide,
   take_item_available_success dbW 1 userA "ph" (some "c") itemAvail
     (by decide) (by decide)⟩

/-- C3: `check_out` fails with `ItemNotFound` on an unknown item id and
with `InvalidTransition` when the item's state is anything other than
`available`; in both failure cases the whole database state (items,
holders, custody events) is returned unchanged. -/
theorem take_item_failure_cases (db : DB) (item_id : Nat) (user : User)
    (photo : String) (comment : Option String) :
    (ItemRepository.get_by_id db item_id = none →
      InventoryService.take_item db item_id user photo comment =
        (db, Except.error InvError.ItemNotFound)) ∧
    (∀ item, ItemRepository.get_by_id db item_id = some item →
      item.status ≠ ItemStatus.AVAILABLE →
      InventoryService.take_item db item_id user photo comment =
        (db, Except.error InvError.InvalidTransition)) := by
  constructor
  · intro h
    unfold InventoryService.take_item
    rw [h]
  · intro item h hst
    unfold InventoryService.take_item
    rw [h]
    simp [hst]

/-- C3 witness: a missing id and an already-taken item, both against `dbW`. -/
theorem take_item_failure_cases_witness :
    ItemRepository.get_by_id dbW 5 = none ∧
    InventoryService.take_item dbW 5 userA "p" none =
      (dbW, Except.error InvError.ItemNotFound) ∧
    ItemRepository.get_by_id dbW 2 = some itemHeld ∧
    itemHeld.status ≠ ItemStatus.AVAILABLE ∧
    InventoryService.take_item dbW 2 userA "p" none =
      (dbW, Except.error InvError.InvalidTransition) :=
  ⟨by decide, (take_item_failure_cases dbW 5 userA "p" none).1 (by decide),
   by decide, by decide,
   (take_item_failure_cases dbW 2 userA "p" none).2 itemHeld (by decide)
     (by decide)⟩

/-- C4: `check_in` fails with `ItemNotFound` on an unknown item id, with
`InvalidTransition` when the item's state is not `taken`, and with
`NotHolder` when the current holder differs from the requesting account;
in every failure case the database state is returned unchanged. -/
theorem return_item_failure_cases (db : DB) (item_id : Nat) (user : User)
    (photo : String) (comment : Option String) :
    (ItemRepository.get_by_id db item_id = none →
      InventoryService.return_item db item_id user photo comment =
        (db, Except.error InvError.ItemNotFound)) ∧
    (∀ item, ItemRepository.get_by_id db item_id = some item →
      item.status ≠ ItemStatus.TAKEN →
      InventoryService.return_item db item_id user photo comment =
        (db, Except.error InvError.InvalidTransition)) ∧
    (∀ item, ItemRepository.get_by_id db item_id = some item →
      item.status = ItemStatus.TAKEN →
      item.current_holder_id ≠ some user.id →
      InventoryService.return_item db item_id user photo comment =
        (db, Except.error InvError.NotHolder)) := by
  refine ⟨?_, ?_, ?_⟩
  · intro h
    unfold InventoryService.return_item
    rw [h]
  · intro item h hst
    unfold InventoryService.return_item
    rw [h]
    simp [hst]
  · intro item h hst hh
    unfold InventoryService.return_item
    rw [h]
    simp [hst, hh]

/-- C4 witness: a missing id, a not-taken item, and a check-in by an
account that is not the holder, all against `dbW`. -/
theorem return_item_failure_cases_witness :
    ItemRepository.get_by_id dbW 5 = none ∧
    InventoryService.return_item dbW 5 userA "p" none =
      (dbW, Except.error InvError.ItemNotFound) ∧
    ItemRepository.get_by_id dbW 1 = some itemAvail ∧
    itemAvail.status ≠ ItemStatus.TAKEN ∧
    InventoryService.return_item dbW 1 userA "p" none =
      (dbW, Except.error InvError.InvalidTransition) ∧
    ItemRepository.get_by_id dbW 2 = some itemHeld ∧
    itemHeld.status = ItemStatus.TAKEN ∧
    itemHeld.current_holder_id ≠ some userA.id ∧
    InventoryService.return_item dbW 2 userA "p" none =
      (dbW, Except.error InvError.NotHolder) :=
  ⟨by decide, (return_item_failure_cases dbW 5 userA "p" none).1 (by decide),
   by decide, by decide,
   (return_item_failure_cases dbW 1 userA "p" none).2.1 itemAvail (by decide)
     (by decide),
   by decide, by decide, by decide,
   (return_item_failure_cases dbW 2 userA "p" none).2.2 itemHeld (by decide)
     (by decide) (by decide)⟩

/-- C5: for every initially `available` item, a successful `check_out`
followed by a `check_in` by the same account returns the item to
`available` with no holder, and appends exactly two new custody events, a
`take` followed by a `return`, in that order. -/
theorem take_then_return_roundtrip (db : DB) (item_id : Nat) (user : User)
    (p1 p2 : String) (c1 c2 : Option String) (item : Item)
    (hfind : ItemRepository.get_by_id db item_id = some item)
    (hav : item.status = ItemStatus.AVAILABLE) :
    ∃ db1 tx1 db2 tx2,
      InventoryService.take_item db item_id user p1 c1 = (db1, Except.ok tx1) ∧
      InventoryService.return_item db1 item_id user p2 c2 =
        (db2, Except.ok tx2) ∧
      ItemRepository.get_by_id db2 item_id =
        some { item with
               status := ItemStatus.AVAILABLE
               current_holder_id := none } ∧
      db2.transactions = db.transactions ++ [tx1, tx2] ∧
      tx1.action = TransactionAction.TAKE ∧
      tx2.action = TransactionAction.RETURN ∧
      tx1.item_id = item_id ∧ tx2.item_id = item_id := by
  obtain ⟨db1, tx1, heq1, hget1, htxs1, hiid1, _, hact1, _, _⟩ :=
    take_item_spec_aux db item_id user p1 c1 item hfind hav
  obtain ⟨db2, tx2, heq2, hget2, htxs2, hiid2, _, hact2, _, _⟩ :=
    return_item_spec_aux db1 item_id user p2 c2 _ hget1 rfl rfl
  refine ⟨db1, tx1, db2, tx2, heq1, heq2, ?_, ?_, hact1, hact2, hiid1, hiid2⟩
  · exact hget2
  · rw [htxs2, htxs1, List.append_assoc]
    rfl

/-- C5 witness: `userA` checks item 1 out of `dbW` and back in. -/
theorem take_then_return_roundtrip_witness :
    ItemRepository.get_by_id dbW 1 = some itemAvail ∧
    itemAvail.status = ItemStatus.AVAILABLE ∧
    (∃ db1 tx1 db2 tx2,
      InventoryService.take_item dbW 1 userA "p1" none = (db1, Except.ok tx1) ∧
      InventoryService.return_item db1 1 userA "p2" none =
        (db2, Except.ok tx2) ∧
      ItemRepository.get_by_id db2 1 =
        some { itemAvail with
               status := ItemStatus.AVAILABLE
               current_holder_id := none } ∧
      db2.transactions = dbW.transactions ++ [tx1, tx2] ∧
      tx1.action = TransactionAction.TAKE ∧
      tx2.action = TransactionAction.RETURN ∧
      tx1.item_id = 1 ∧ tx2.item_id = 1) :=
  ⟨by decide, by decide,
   take_then_return_roundtrip dbW 1 userA "p1" "p2" none none itemAvail
     (by decide) (by decide)⟩

/-- C6: an administrative forced status change to a status other than
`taken`, on an existing item, reports success, clears the holder, leaves
every other item field and the custody events untouched, and appends
exactly one audit entry referencing the acting administrator. -/
theorem set_item_status_nontaken_spec (db : DB) (admin : User) (item_id : Nat)
    (status : ItemStatus) (item : Item)
    (hfind : ItemRepository.get_by_id db item_id = some item)
    (hs : status ≠ ItemStatus.TAKEN) :
    ∃ db2,
      AdminService.set_item_status db admin item_id status = (db2, true) ∧
      ItemRepository.get_by_id db2 item_id =
        some { item with status := status, current_holder_id := none } ∧
      db2.transactions = db.transactions ∧
      (∃ entry,
        db2.admin_logs = db.admin_logs ++ [entry] ∧
        entry.admin_id = some admin.id ∧
        entry.action = "set_item_status") := by
  unfold AdminService.set_item_status
  rw [hfind]
  simp only [hs, ne_eq, not_false_eq_true, if_true, ite_true]
  refine ⟨_, rfl, ?_, rfl, ⟨_, rfl, rfl, rfl⟩⟩
  show ItemRepository.get_by_id _ item_id = _
  unfold ItemRepository.get_by_id DB.setItem
  exact find?_map_replace db.items item_id item _ hfind rfl

/-- C6 witness: the administrator forces the held item 2 of `dbW` to
`maintenance`. -/
theorem set_item_status_nontaken_spec_witness :
    ItemRepository.get_by_id dbW 2 = some itemHeld ∧
    ItemStatus.MAINTENANCE ≠ ItemStatus.TAKEN ∧
    (∃ db2,
      AdminService.set_item_status dbW adminU 2 ItemStatus.MAINTENANCE =
        (db2, true) ∧
      ItemRepository.get_by_id db2 2 =
        some { itemHeld with
               status := ItemStatus.MAINTENANCE
               current_holder_id := none } ∧
      db2.transactions = dbW.transactions ∧
      (∃ entry,
        db2.admin_logs = dbW.admin_logs ++ [entry] ∧
        entry.admin_id = some adminU.id ∧
        entry.action = "set_item_status")) :=
  ⟨by decide, by decide,
   set_item_status_nontaken_spec dbW adminU 2 ItemStatus.MAINTENANCE itemHeld
     (by decide) (by decide)⟩

/-- C1 counterexample: in `dbW` the equivalence `taken ↔ holder non-null`
holds, yet the administrative forced change of the available item 1 to
`taken` leaves its holder null, so the operation does not preserve the
equivalence. -/
theorem holderInv_not_preserved_by_force_taken :
    dbW.holderInv ∧
    ¬ (applyOp dbW (Op.set_item_status adminU 1 ItemStatus.TAKEN)).holderInv :=
  ⟨by decide, by decide⟩

/-- C1 (amended): check-out, check-in (successful or failed) and every
administrative forced status change whose new status is not `taken`
preserve the equivalence `state = taken ↔ current holder non-null` for
every item; a forced change to `taken` is excluded because it leaves the
holder field unchanged. -/
theorem holderInv_preserved_unless_force_taken (db : DB) (op : Op)
    (hinv : db.holderInv) (hop : op.forcesTaken = false) :
    (applyOp db op).holderInv := by
  cases op with
  | take_item i u p c =>
    simp only [applyOp]
    cases hg : ItemRepository.get_by_id db i with
    | none =>
      unfold InventoryService.take_item
      rw [hg]
      exact hinv
    | some item =>
      unfold InventoryService.take_item
      rw [hg]
      dsimp only
      split
      · exact hinv
      · intro it2 hmem
        have hmem2 : it2 ∈ (DB.setItem db
            { item with
              status := ItemStatus.TAKEN
              current_holder_id := some u.id }).items := hmem
        rcases mem_setItem hmem2 with h | ⟨h, _⟩
        · subst h
          simp
        · exact hinv it2 h
  | return_item i u p c =>
    simp only [applyOp]
    cases hg : ItemRepository.get_by_id db i with
    | none =>
      unfold InventoryService.return_item
      rw [hg]
      exact hinv
    | some item =>
      unfold InventoryService.return_item
      rw [hg]
      dsimp only
      split
      · exact hinv
      · split
        · exact hinv
        · intro it2 hmem
          have hmem2 : it2 ∈ (DB.setItem db
              { item with
                status := ItemStatus.AVAILABLE
                current_holder_id := none }).items := hmem
          rcases mem_setItem hmem2 with h | ⟨h, _⟩
          · subst h
            simp
          · exact hinv it2 h
  | set_item_status a i s =>
    have hs : s ≠ ItemStatus.TAKEN := by simpa [Op.forcesTaken] using hop
    simp only [applyOp]
    cases hg : ItemRepository.get_by_id db i with
    | none =>
      unfold AdminService.set_item_status
      rw [hg]
      exact hinv
    | some item =>
      unfold AdminService.set_item_status
      rw [hg]
      dsimp only
      intro it2 hmem
      have hmem2 : it2 ∈ (DB.setItem db
          { item with
            status := s
            current_holder_id :=
              if s ≠ ItemStatus.TAKEN then none
              else item.current_holder_id }).items := hmem
      rcases mem_setItem hmem2 with h | ⟨h, _⟩
      · subst h
        simp [hs]
      · exact hinv it2 h

/-- C1 (amended) witness: checking item 1 out of `dbW` preserves the
equivalence. -/
theorem holderInv_preserved_unless_force_taken_witness :
    dbW.holderInv ∧
    (Op.take_item 1 userA "p" none).forcesTaken = false ∧
    (applyOp dbW (Op.take_item 1 userA "p" none)).holderInv :=
  ⟨by decide, by decide,
   holderInv_preserved_unless_force_taken dbW (Op.take_item 1 userA "p" none)
     (by decide) (by decide)⟩

/-- Single-step preservation of the history-agreement invariant by any
operation that is not a forced change to `taken`. -/
theorem applyOp_preserves_agreement (db : DB) (op : Op)
    (hinv : db.holderAgreesHistory) (hop : op.forcesTaken = false) :
    (applyOp db op).holderAgreesHistory := by
  cases op with
  | take_item i u p c =>
    simp only [applyOp]
    cases hg : ItemRepository.get_by_id db i with
    | none =>
      unfold InventoryService.take_item
      rw [hg]
      exact hinv
    | some item =>
      unfold InventoryService.take_item
      rw [hg]
      dsimp only
      split
      · exact hinv
      · intro it2 hmem
        have hmem2 : it2 ∈ (DB.setItem db
            { item with
              status := ItemStatus.TAKEN
              current_holder_id := some u.id }).items := hmem
        unfold TransactionRepository.get_latest_take_for_item
        dsimp only
        rw [find?_reverse_concat]
        rcases mem_setItem hmem2 with h | ⟨h, hne⟩
        · subst h
          constructor
          · intro _
            simp
          · intro hab
            exact absurd rfl hab
        · have hne2 : (item.id == it2.id) = false := by
            simpa using Ne.symm hne
          rw [hne2]
          simp only [Bool.false_and, if_false, Bool.false_eq_true, ite_false]
          exact hinv it2 h
  | return_item i u p c =>
    simp only [applyOp]
    cases hg : ItemRepository.get_by_id db i with
    | none =>
      unfold InventoryService.return_item
      rw [hg]
      exact hinv
    | some item =>
      unfold InventoryService.return_item
      rw [hg]
      dsimp only
      split
      · exact hinv
      · split
        · exact hinv
        · intro it2 hmem
          have hmem2 : it2 ∈ (DB.setItem db
              { item with
                status := ItemStatus.AVAILABLE
                current_holder_id := none }).items := hmem
          unfold TransactionRepository.get_latest_take_for_item
          dsimp only
          rw [find?_reverse_concat]
          simp only
            [show (TransactionAction.RETURN == TransactionAction.TAKE) = false
               from rfl,
             Bool.and_false, if_false, Bool.false_eq_true, ite_false]
          rcases mem_setItem hmem2 with h | ⟨h, hne⟩
          · subst h
            constructor
            · intro hab
              exact absurd hab (by simp)
            · intro _
              rfl
          · exact hinv it2 h
  | set_item_status a i s =>
    have hs : s ≠ ItemStatus.TAKEN := by simpa [Op.forcesTaken] using hop
    simp only [applyOp]
    cases hg : ItemRepository.get_by_id db i with
    | none =>
      unfold AdminService.set_item_status
      rw [hg]
      exact hinv
    | some item =>
      unfold AdminService.set_item_status
      rw [hg]
      dsimp only
      intro it2 hmem
      have hmem2 : it2 ∈ (DB.setItem db
          { item with
            status := s
            current_holder_id :=
              if s ≠ ItemStatus.TAKEN then none
              else item.current_holder_id }).items := hmem
      rcases mem_setItem hmem2 with h | ⟨h, hne⟩
      · subst h
        constructor
        · intro hTk
          exact absurd hTk hs
        · intro _
          simp [hs]
      · exact hinv it2 h

/-- C7 counterexample: in `dbHist` item 1 was taken and then returned by
`userB`, so the history agreement holds; forcing it to `taken`
administratively leaves its holder null while its most recent `take`
event references `userB`, breaking the agreement. -/
theorem holder_agrees_history_not_preserved_by_force_taken :
    dbHist.holderAgreesHistory ∧
    ¬ (applyOps dbHist
        [Op.set_item_status adminU 1 ItemStatus.TAKEN]).holderAgreesHistory :=
  ⟨by decide, by decide⟩

/-- C7 (amended): after any sequence of check-outs, check-ins and
administrative forced status changes whose new status is not `taken`, the
denormalized holder of every `taken` item is the account of its most
recent `take` custody event, and the holder of every item not `taken` is
null, provided the starting state already satisfied that agreement. -/
theorem holder_agrees_history_preserved (db : DB) (ops : List Op)
    (hinv : db.holderAgreesHistory)
    (hops : ∀ op ∈ ops, op.forcesTaken = false) :
    (applyOps db ops).holderAgreesHistory := by
  induction ops generalizing db with
  | nil => exact hinv
  | cons op rest ih =>
    exact ih (applyOp db op)
      (applyOp_preserves_agreement db op hinv (hops op (by simp)))
      (fun o ho => hops o (by simp [ho]))

/-- C7 (amended) witness: a take, a return and a forced move to `lost`
starting from `dbW`. -/
theorem holder_agrees_history_preserved_witness :
    dbW.holderAgreesHistory ∧
    (∀ op ∈ [Op.take_item 1 userA "p1" none, Op.return_item 1 userA "p2" none,
             Op.set_item_status adminU 2 ItemStatus.LOST],
      op.forcesTaken = false) ∧
    (applyOps dbW
      [Op.take_item 1 userA "p1" none, Op.return_item 1 userA "p2" none,
       Op.set_item_status adminU 2 ItemStatus.LOST]).holderAgreesHistory :=
  ⟨by decide, by decide,
   holder_agrees_history_preserved dbW
     [Op.take_item 1 userA "p1" none, Op.return_item 1 userA "p2" none,
      Op.set_item_status adminU 2 ItemStatus.LOST]
     (by decide) (by decide)⟩

/-- C8: creating an item whose supplied non-null code is already in use
fails with `DuplicateCode`; creating one under a missing category fails
with `CategoryNotFound`; creating a second category with an existing name
fails with `DuplicateName`; each failure leaves the store unchanged, so no
entity is created. -/
theorem create_uniqueness_failures :
    (∀ (db : DB) (admin : User) (category_id : Nat) (nm : String)
        (code : Option String),
      code ≠ none → (∃ j ∈ db.items, j.inventory_code = code) →
      AdminService.create_item db admin category_id nm code =
        (db, Except.error ConstraintViolation.DuplicateCode)) ∧
    (∀ (db : DB) (admin : User) (category_id : Nat) (nm : String)
        (code : Option String),
      ¬ (code ≠ none ∧ ∃ j ∈ db.items, j.inventory_code = code) →
      (∀ cat ∈ db.categories, cat.id ≠ category_id) →
      AdminService.create_item db admin category_id nm code =
        (db, Except.error ConstraintViolation.CategoryNotFound)) ∧
    (∀ (db : DB) (admin : User) (nm : String) (d : Option String),
      (∃ cat ∈ db.categories, cat.name = nm) →
      AdminService.create_category db admin nm d =
        (db, Except.error ConstraintViolation.DuplicateName)) := by
  refine ⟨?_, ?_, ?_⟩
  · intro db admin cid nm code h1 h2
    unfold AdminService.create_item
    rw [if_pos ⟨h1, h2⟩]
  · intro db admin cid nm code h1 h2
    unfold AdminService.create_item
    rw [if_neg h1, if_pos h2]
  · intro db admin nm d h
    unfold AdminService.create_category
    rw [if_pos h]

/-- C8 witness: a duplicate inventory code, a missing category and a
duplicate category name against `dbW`. -/
theorem create_uniqueness_failures_witness :
    (some "C-1" : Option String) ≠ none ∧
    (∃ j ∈ dbW.items, j.inventory_code = some "C-1") ∧
    AdminService.create_item dbW adminU 1 "spare" (some "C-1") =
      (dbW, Except.error ConstraintViolation.DuplicateCode) ∧
    ¬ ((some "C-9" : Option String) ≠ none ∧
        ∃ j ∈ dbW.items, j.inventory_code = some "C-9") ∧
    (∀ cat ∈ dbW.categories, cat.id ≠ 7) ∧
    AdminService.create_item dbW adminU 7 "spare" (some "C-9") =
      (dbW, Except.error ConstraintViolation.CategoryNotFound) ∧
    (∃ cat ∈ dbW.categories, cat.name = "tools") ∧
    AdminService.create_category dbW adminU "tools" none =
      (dbW, Except.error ConstraintViolation.DuplicateName) :=
  ⟨by decide, by decide,
   create_uniqueness_failures.1 dbW adminU 1 "spare" (some "C-1") (by decide)
     (by decide),
   by decide, by decide,
   create_uniqueness_failures.2.1 dbW adminU 7 "spare" (some "C-9") (by decide)
     (by decide),
   by decide,
   create_uniqueness_failures.2.2 dbW adminU "tools" none (by decide)⟩

/-- Effect of `get_or_create_from_telegram` on an account that already
exists: the admin flag becomes the disjunction of the stored flag and the
`make_admin` argument, the name fields are overwritten, and the updated
row is stored. -/
theorem get_or_create_existing (db : DB) (tid : Int)
    (un fn ln : Option String) (ma : Bool) (u : User)
    (hfind : db.users.find? (fun x => x.telegram_id == tid) = some u) :
    (UserRepository.get_or_create_from_telegram db tid un fn ln ma).2.is_admin
        = (u.is_admin || ma) ∧
    (UserRepository.get_or_create_from_telegram db tid un fn ln ma).2.username
        = un ∧
    (UserRepository.get_or_create_from_telegram db tid un fn ln ma).2.first_name
        = fn ∧
    (UserRepository.get_or_create_from_telegram db tid un fn ln ma).2.last_name
        = ln ∧
    (UserRepository.get_or_create_from_telegram db tid un fn ln ma).2 ∈
      (UserRepository.get_or_create_from_telegram db tid un fn ln ma).1.users := by
  unfold UserRepository.get_or_create_from_telegram
  rw [hfind]
  dsimp only
  refine ⟨?_, rfl, rfl, rfl, ?_⟩
  · cases hA : u.is_admin <;> cases hM : ma <;> simp [hA, hM]
  · refine List.mem_map.mpr ⟨u, List.mem_of_find?_eq_some hfind, ?_⟩
    dsimp only
    split <;> rw [if_pos rfl]

/-- C10: identity bootstrap never demotes an existing account: the admin
flag stays set whenever it was set regardless of the allow-list; it ends
up set exactly when it was already set or the telegram id, or the
non-empty lowercased '@'-stripped username, matches the allow-list; and
the stored username, first name and last name are always overwritten with
the supplied values. -/
theorem ensure_user_never_demotes (db : DB) (tid : Int)
    (un fn ln : Option String) (ids : List Int) (uns : List String)
    (u : User) (db2 : DB) (u2 : User)
    (hfind : db.users.find? (fun x => x.telegram_id == tid) = some u)
    (heq : InventoryService.ensure_user db tid un fn ln ids uns = (db2, u2)) :
    (u.is_admin = true → u2.is_admin = true) ∧
    (u2.is_admin = true ↔
      (u.is_admin = true ∨ tid ∈ ids ∨
        (normalizedUsername un ≠ "" ∧ normalizedUsername un ∈ uns))) ∧
    u2.username = un ∧ u2.first_name = fn ∧ u2.last_name = ln ∧
    u2 ∈ db2.users := by
  obtain ⟨hadm, hun, hfn, hln, hmem⟩ :=
    get_or_create_existing db tid un fn ln
      (ids.contains tid ||
        (if normalizedUsername un ≠ "" then
          uns.contains (normalizedUsername un) else false)) u hfind
  have heq2 : UserRepository.get_or_create_from_telegram db tid un fn ln
      (ids.contains tid ||
        (if normalizedUsername un ≠ "" then
          uns.contains (normalizedUsername un) else false)) = (db2, u2) := heq
  have hsnd := congrArg Prod.snd heq2
  have hfst := congrArg Prod.fst heq2
  dsimp only at hsnd hfst
  rw [hsnd] at hadm hun hfn hln hmem
  rw [hfst] at hmem
  refine ⟨?_, ?_, hun, hfn, hln, hmem⟩
  · intro h
    rw [hadm, h]
    rfl
  · rw [hadm]
    simp

/-- C10 witness: `userA` (not an administrator) reconnects as "@Alice"
while `alice` is on the username allow-list: the flag is raised and the
name fields are overwritten. -/
theorem ensure_user_never_demotes_witness :
    dbW.users.find? (fun x => x.telegram_id == 100) = some userA ∧
    InventoryService.ensure_user dbW 100 (some "@Alice") (some "F") (some "L")
      [] ["alice"] = (db2X, u2X) ∧
    ((userA.is_admin = true → u2X.is_admin = true) ∧
     (u2X.is_admin = true ↔
       (userA.is_admin = true ∨ (100 : Int) ∈ ([] : List Int) ∨
         (normalizedUsername (some "@Alice") ≠ "" ∧
          normalizedUsername (some "@Alice") ∈ ["alice"]))) ∧
     u2X.username = some "@Alice" ∧ u2X.first_name = some "F" ∧
     u2X.last_name = some "L" ∧ u2X ∈ db2X.users) :=
  ⟨by decide, by decide,
   ensure_user_never_demotes dbW 100 (some "@Alice") (some "F") (some "L")
     [] ["alice"] userA db2X u2X (by decide) (by decide)⟩
